import Mathlib

/-!
Shallow embedding of the IHP PDK cell generators
(`src/ihp/cells/inductors.py` and `src/ihp/cells/bondpads.py`).

Geometry coordinates are modelled with exact rationals (`ℚ`).  The Python
code evaluates `math.cos`/`math.sin` at angles that are odd multiples of
π/8 (`i * pi_over_4 + pi_over_4 / 2`); those transcendental values are
abstracted as parameters `tcos tsin : ℤ → ℚ`, where `tcos k` stands for
`cos (k·π/8)` and `tsin k` for `sin (k·π/8)`.  Likewise the bondpad
generator's `math.sqrt(2)` and `gf.snap.snap_to_grid2x` are abstracted as
parameters.  All structural computation (grid quantization, point-list
construction, layer replication, port creation, error raising, keyword
binding) is translated faithfully from the source.
-/

namespace IHP

/-- Python `round`: nearest integer, ties to even (banker's rounding),
on exact rationals.  `q.num / q.den` is the floor of `q` (integer
division by the positive denominator). -/
def pyRound (q : ℚ) : ℤ :=
  let n := q.num / (q.den : ℤ)
  let frac := q - n
  if frac < 1/2 then n
  else if 1/2 < frac then n + 1
  else if n % 2 = 0 then n else n + 1

/-- Ordinary grid quantization, `round(v / g) * g`
(used for `space`, inductors.py line 74). -/
def quantize (g v : ℚ) : ℚ := pyRound (v / g) * g

/-- Even-multiple grid quantization, `round(v / (2*g)) * 2 * g`
(used for `width` and `diameter`, inductors.py lines 73 and 75). -/
def quantizeEven (g v : ℚ) : ℚ := pyRound (v / (2 * g)) * (2 * g)

/-- The manufacturing grid used by `inductor2` (line 72). -/
def grid : ℚ := 1/100

/-- A named electrical port (`Component.add_port`). -/
structure Port (L : Type) where
  name : String
  center : ℚ × ℚ
  width : ℚ
  orientation : ℤ
  layer : L
  deriving DecidableEq, Repr

/-- A metadata value stored in `Component.info`. -/
inductive InfoVal (L : Type) where
  | num (q : ℚ)
  | int (n : ℤ)
  | str (s : String)
  | layer (l : L)
  deriving DecidableEq, Repr

/-- A geometry reference added to a component with `add_ref` / `<<`:
an extruded path, a moved rectangle, or one of the bondpad primitives. -/
inductive Ref (L : Type) where
  | extrudedPath (points : List (ℚ × ℚ)) (layer : L) (width : ℚ)
  | rect (size : ℚ × ℚ) (layer : L) (moved : ℚ × ℚ)
  | rectCentered (size : ℚ × ℚ) (layer : L)
  | octagonRef (side_length : ℚ) (layer : L)
  | circleRef (radius : ℚ) (layer : L)
  deriving DecidableEq, Repr

/-- The process layer a geometry reference is drawn on. -/
def Ref.layer {L : Type} : Ref L → L
  | .extrudedPath _ l _ => l
  | .rect _ l _ => l
  | .rectCentered _ l => l
  | .octagonRef _ l => l
  | .circleRef _ l => l

/-- An assembled layout cell: referenced geometry, directly added polygons,
ports and metadata, each list in insertion order. -/
structure Component (L : Type) where
  refs : List (Ref L)
  polygons : List (List (ℚ × ℚ) × L)
  ports : List (Port L)
  info : List (String × InfoVal L)
  deriving DecidableEq, Repr

/-! ### Inductors (`src/ihp/cells/inductors.py`) -/

/-- Layer `TM2 = (134, 0)` (TopMetal2). -/
def TM2 : ℤ × ℤ := (134, 0)

/-- Layer `IND = (27, 0)`. -/
def IND : ℤ × ℤ := (27, 0)

/-- Layer `NoRCX = (148, 0)`. -/
def NoRCX : ℤ × ℤ := (148, 0)

/-- Layer `PWellBlock = (46, 21)`. -/
def PWellBlock : ℤ × ℤ := (46, 21)

/-- Layer `TopMetal2Pin = (134, 2)`. -/
def TopMetal2Pin : ℤ × ℤ := (134, 2)

/-- The nine anti-fill layers of `inductor2` (lines 59–69). -/
def NoFillLayers : List (ℤ × ℤ) :=
  [(1, 23), (5, 23), (8, 23), (10, 23), (30, 23),
   (50, 23), (67, 23), (126, 23), (134, 23)]

/-- The coil centerline points of `inductor2` (lines 82–96): a gap point at
`(+space/2, center_y - r·cos(π/8))`, eight octagon vertices at angles
`(2i+1)·π/8` for `i = -2 … 5`, and a gap point at
`(-space/2, center_y - r·cos(π/8))`.  `space` is the raw parameter; `s` and
`d` are the already-quantized spacing and diameter. -/
def coilPathPoints (tcos tsin : ℤ → ℚ) (space s d : ℚ) : List (ℚ × ℚ) :=
  let r := d / 2 + s
  let octagon_center_y := 3 * r
  [(space / 2, octagon_center_y - r * tcos 1)]
    ++ (([-2, -1, 0, 1, 2, 3, 4, 5] : List ℤ).map (fun i =>
          let k := 2 * i + 1
          (r * tcos k, r * tsin k + octagon_center_y)))
    ++ [(-(space / 2), octagon_center_y - r * tcos 1)]

/-- The outer octagon boundary of `inductor2` (lines 118–124): eight
vertices at radius `(d/2 + length) / cos(π/8)` and angles `(2i+1)·π/8`
for `i = 0 … 7`, where `length = 2r + s`. -/
def outerPolygonPts (tcos tsin : ℤ → ℚ) (s d : ℚ) : List (ℚ × ℚ) :=
  let r := d / 2 + s
  let octagon_center_y := 3 * r
  let len := 2 * r + s
  ([0, 1, 2, 3, 4, 5, 6, 7] : List ℤ).map (fun i =>
    let k := 2 * i + 1
    let r_outer := (d / 2 + len) / tcos 1
    (r_outer * tcos k, r_outer * tsin k + octagon_center_y))

/-- `inductor2` (lines 26–154): quantizes the parameters, extrudes the coil
path, adds the two port stubs and ports `P1`/`P2`, replicates the outer
octagon over the identification / anti-fill / blocking / well layers, adds
the two pin markers and writes the metadata. -/
def inductor2 (tcos tsin : ℤ → ℚ) (width space diameter resistance inductance : ℚ)
    (turns : ℤ) (block_qrc : Bool) : Component (ℤ × ℤ) :=
  let w := quantizeEven grid width
  let s := quantize grid space
  let d := quantizeEven grid diameter
  let r := d / 2 + s
  let len := 2 * r + s
  let path_points := coilPathPoints tcos tsin space s d
  let outer := outerPolygonPts tcos tsin s d
  { refs := [
      .extrudedPath path_points TM2 w,
      .rect (s, len) TM2 (-s - s/2, 0),
      .rect (s, len) TM2 (s - s/2, 0),
      .rect (s, s) TopMetal2Pin (s/2, 0),
      .rect (s, s) TopMetal2Pin (-s - s/2, 0)]
    polygons := (outer, IND) :: NoFillLayers.map (fun l => (outer, l))
        ++ (if block_qrc then [(outer, NoRCX)] else []) ++ [(outer, PWellBlock)]
    ports := [
      ⟨"P1", (-s, s), s, 270, TM2⟩,
      ⟨"P2", (s, s), s, 270, TM2⟩]
    info := [
      ("resistance", .num resistance), ("inductance", .num inductance),
      ("model", .str "inductor2"), ("turns", .int turns),
      ("width", .num width), ("space", .num space), ("diameter", .num diameter)] }

/-- The keyword parameters accepted by `inductor2` (lines 26–34). -/
def inductor2ParamNames : List String :=
  ["width", "space", "diameter", "resistance", "inductance", "turns", "block_qrc"]

/-- The keyword arguments `inductor3` passes to `inductor2` (lines 184–193). -/
def inductor3ForwardedKwargs : List String :=
  ["width", "space", "diameter", "resistance", "inductance", "turns",
   "block_qrc", "substrate_etch"]

/-- `inductor3` (lines 157–193): forwards all of its arguments to
`inductor2` as keyword arguments.  Python binds each keyword against the
callee's parameter list and raises `TypeError` on the first keyword the
callee does not accept, before the callee body runs. -/
def inductor3 (tcos tsin : ℤ → ℚ) (width space diameter resistance inductance : ℚ)
    (turns : ℤ) (block_qrc substrate_etch : Bool) : Except String (Component (ℤ × ℤ)) :=
  match inductor3ForwardedKwargs.find? (fun k => !(inductor2ParamNames.contains k)) with
  | some k => .error ("TypeError: inductor2 got an unexpected keyword argument " ++ k)
  | none => .ok (inductor2 tcos tsin width space diameter resistance inductance turns block_qrc)

/-! ### Bondpads (`src/ihp/cells/bondpads.py`)

Symbolic layer specifications are kept abstract as a type `L`; `sqrt2`
abstracts `math.sqrt(2)` and `snap2x` abstracts
`gf.snap.snap_to_grid2x`. -/

/-- The base pad shape of `bondpad` (lines 41–66): a centered square, an
octagon with grid-snapped side length, or a circle; `none` when `shape`
is not one of the three recognized values (the `else: raise` branch). -/
def padShapeRef {L : Type} (snap2x : ℚ → ℚ) (sqrt2 : ℚ)
    (shape : String) (d : ℚ) (layer_top_metal : L) : Option (Ref L) :=
  if shape = "square" then
    some (.rectCentered (d, d) layer_top_metal)
  else if shape = "octagon" then
    some (.octagonRef (snap2x (d / (1 + sqrt2))) layer_top_metal)
  else if shape = "circle" then
    some (.circleRef (d / 2) layer_top_metal)
  else
    none

/-- One opening polygon of the `bondpad` offset-layer loop body
(lines 70–87); the `if/elif/elif` chain has no `else`, so an unrecognized
shape adds nothing. -/
def openingRef {L : Type} (snap2x : ℚ → ℚ) (sqrt2 : ℚ)
    (shape : String) (d : ℚ) (layer : L) (offset : ℚ) : Option (Ref L) :=
  if shape = "square" then
    some (.rectCentered (d + offset, d + offset) layer)
  else if shape = "octagon" then
    some (.octagonRef (snap2x (offset + d / (1 + sqrt2))) layer)
  else if shape = "circle" then
    some (.circleRef (d / 2 + offset / 2) layer)
  else
    none

/-- `bondpad` (lines 13–103): builds the base shape (raising
`ValueError` for an unknown shape before any geometry is emitted), then
one opening per `(layer, offset)` pair of
`zip((layer_passiv, layer_dfpad), bbox_offsets or [])`, the `"pad"` port
and the metadata. -/
def bondpad {L : Type} (snap2x : ℚ → ℚ) (sqrt2 : ℚ) (shape : String) (diameter : ℚ)
    (layer_top_metal layer_passiv layer_dfpad : L)
    (bbox_offsets : Option (List ℚ)) : Except String (Component L) :=
  let d := diameter
  match padShapeRef snap2x sqrt2 shape d layer_top_metal with
  | none => .error ("Unknown shape: " ++ shape)
  | some base =>
    let openings := (List.zip [layer_passiv, layer_dfpad] (bbox_offsets.getD [])).filterMap
      (fun lo => openingRef snap2x sqrt2 shape d lo.1 lo.2)
    .ok { refs := base :: openings
          polygons := []
          ports := [⟨"pad", (0, 0), d, 0, layer_top_metal⟩]
          info := [("shape", .str shape), ("diameter", .num diameter),
                   ("top_metal", .layer layer_top_metal)] }

/-- `pad.ports["pad"].layer` (line 152): dictionary lookup of a port by
name; a missing name is a `KeyError`. -/
def getPortLayer {L : Type} (c : Component L) (name : String) : Except String L :=
  match c.ports.find? (fun p => p.name = name) with
  | some p => .ok p.layer
  | none => .error ("KeyError: " ++ name)

/-- One replicated pad instance of `bondpad_array` paired with its
`movex` translation, plus the re-exported port. -/
structure ArrayComponent (L : Type) where
  padInstances : List (Component L × ℚ)
  ports : List (Port L)
  info : List (String × InfoVal L)
  deriving DecidableEq, Repr

/-- The `for i in range(n_pads)` loop of `bondpad_array` (lines 134–154):
iteration `i` builds the pad, places it at `x = i·pad_pitch`, and adds
port `"pad_{i+1}"` at `(i·pad_pitch, 0)` with width `pad_diameter` and
the layer of the instanced pad's own `"pad"` port. -/
def bondpadArrayAux {L : Type} (snap2x : ℚ → ℚ) (sqrt2 : ℚ) (shape : String)
    (pad_diameter : ℚ) (layer_top_metal layer_passiv layer_dfpad : L)
    (bbox_offsets : Option (List ℚ)) (pad_pitch : ℚ) :
    ℕ → Except String (List (Component L × ℚ) × List (Port L))
  | 0 => .ok ([], [])
  | n + 1 => do
    let (pads, ports) ← bondpadArrayAux snap2x sqrt2 shape pad_diameter
      layer_top_metal layer_passiv layer_dfpad bbox_offsets pad_pitch n
    let pad ← bondpad snap2x sqrt2 shape pad_diameter
      layer_top_metal layer_passiv layer_dfpad bbox_offsets
    let l ← getPortLayer pad "pad"
    .ok (pads ++ [(pad, (n : ℚ) * pad_pitch)],
         ports ++ [⟨"pad_" ++ toString (n + 1), ((n : ℚ) * pad_pitch, 0), pad_diameter, 0, l⟩])

/-- `bondpad_array` (lines 106–160): replicates `bondpad` along the
pitch and writes the aggregate metadata. -/
def bondpadArray {L : Type} (snap2x : ℚ → ℚ) (sqrt2 : ℚ) (n_pads : ℕ)
    (pad_pitch pad_diameter : ℚ) (shape : String)
    (layer_top_metal layer_passiv layer_dfpad : L)
    (bbox_offsets : Option (List ℚ)) : Except String (ArrayComponent L) := do
  let (pads, ports) ← bondpadArrayAux snap2x sqrt2 shape pad_diameter
    layer_top_metal layer_passiv layer_dfpad bbox_offsets pad_pitch n_pads
  .ok { padInstances := pads
        ports := ports
        info := [("n_pads", .int n_pads), ("pad_pitch", .num pad_pitch),
                 ("pad_diameter", .num pad_diameter)] }

/-! ### Helper lemmas -/

/-- `pyRound` written with `Int.floor`. -/
theorem pyRound_eq_floor (q : ℚ) :
    pyRound q =
      if q - ⌊q⌋ < 1/2 then ⌊q⌋
      else if 1/2 < q - ⌊q⌋ then ⌊q⌋ + 1
      else if ⌊q⌋ % 2 = 0 then ⌊q⌋ else ⌊q⌋ + 1 := by
  rw [pyRound, Rat.floor_def]

/-- `pyRound` on an integer is the identity. -/
theorem pyRound_intCast (n : ℤ) : pyRound (n : ℚ) = n := by
  rw [pyRound_eq_floor, Int.floor_intCast]
  norm_num

/-- The spacing default `2.1` is already on the grid. -/
theorem quantize_grid_two_point_one : quantize grid (21/10) = 21/10 := by
  have h : (21:ℚ)/10/grid = ((210:ℤ) : ℚ) := by norm_num [grid]
  rw [quantize, h, pyRound_intCast]
  norm_num [grid]

/-! ### Claim theorems -/

/-- C7: for every value `v` and grid resolution `g > 0`, half of the
even-multiple quantization `round(v/(2g))·2g` is an exact integer
multiple of `g` (so the radius `d/2` computed from a quantized diameter
lands on the grid). -/
theorem quantizeEven_half_on_grid (v g : ℚ) (hg : 0 < g) :
    ∃ n : ℤ, quantizeEven g v / 2 = (n : ℚ) * g :=
  ⟨pyRound (v / (2 * g)), by rw [quantizeEven]; ring⟩

/-- Witness for C7 at `v = 7`, `g = 1/100`. -/
theorem quantizeEven_half_on_grid_witness :
    (0 : ℚ) < 1/100 ∧ ∃ n : ℤ, quantizeEven (1/100) 7 / 2 = (n : ℚ) * (1/100) :=
  ⟨by simp, quantizeEven_half_on_grid 7 (1/100) (by simp)⟩

/-- C8: both grid-quantization policies of `inductor2` are idempotent:
re-quantizing a quantized value returns it unchanged. -/
theorem quantize_idempotent (u g : ℚ) (hg : g ≠ 0) :
    quantize g (quantize g u) = quantize g u ∧
    quantizeEven g (quantizeEven g u) = quantizeEven g u := by
  refine ⟨?_, ?_⟩
  · rw [quantize, quantize, mul_div_cancel_right₀ _ hg, pyRound_intCast]
  · have h2 : (2:ℚ) * g ≠ 0 := mul_ne_zero two_ne_zero hg
    rw [quantizeEven, quantizeEven, mul_div_cancel_right₀ _ h2, pyRound_intCast]

/-- Witness for C8 at `u = 37/10`, `g = 1/100`. -/
theorem quantize_idempotent_witness :
    quantize (1/100) (quantize (1/100) (37/10)) = quantize (1/100) (37/10) ∧
    quantizeEven (1/100) (quantizeEven (1/100) (37/10)) = quantizeEven (1/100) (37/10) :=
  quantize_idempotent (37/10) (1/100) (by simp)

/-- C1: `inductor3` forwards the keyword argument `substrate_etch` to
`inductor2`, which does not accept it, so every call of `inductor3`
raises `TypeError` instead of returning the delegated component. -/
theorem inductor3_always_type_error (tcos tsin : ℤ → ℚ)
    (width space diameter resistance inductance : ℚ) (turns : ℤ)
    (block_qrc substrate_etch : Bool) :
    inductor3 tcos tsin width space diameter resistance inductance turns
        block_qrc substrate_etch
      = .error "TypeError: inductor2 got an unexpected keyword argument substrate_etch" :=
  rfl

/-- The spacing `1.004` quantizes to `1`. -/
theorem quantize_grid_1004 : quantize grid (1004/1000) = 1 := by
  have h1 : ⌊(1004:ℚ)/1000/grid⌋ = 100 := by
    rw [Int.floor_eq_iff]
    constructor <;> norm_num [grid]
  rw [quantize, pyRound_eq_floor, h1]
  norm_num [grid]

/-- C3 counterexample: at `space = 1.004` the quantized spacing is
`s = 1`, yet the coil path's first point has `x = 0.502 = space/2`,
not `s/2 = 0.5`: the gap points use the raw `space`, not the quantized
spacing. -/
theorem coil_gap_uses_raw_space :
    ((coilPathPoints (fun _ => 0) (fun _ => 0) (1004/1000)
        (quantize grid (1004/1000)) (quantizeEven grid (2535/100))).head?.map Prod.fst
      = some (251/500))
    ∧ quantize grid (1004/1000) = 1
    ∧ (251/500 : ℚ) ≠ quantize grid (1004/1000) / 2 := by
  refine ⟨?_, quantize_grid_1004, ?_⟩
  · simp only [coilPathPoints, List.cons_append, List.head?_cons, Option.map_some]
    norm_num
  · rw [quantize_grid_1004]
    norm_num

/-- C3 (amended): for every width, space and diameter, the coil path's
first point is `(+space/2, y)` and its last point is `(-space/2, y)` with
`y = 3r - r·cos(π/8)` and `r = d/2 + s` from the quantized diameter and
spacing — the gap `x`-coordinates use the raw `space` parameter, not the
quantized spacing. -/
theorem coil_gap_points (tcos tsin : ℤ → ℚ)
    (width space diameter resistance inductance : ℚ) (turns : ℤ) (bq : Bool) :
    (inductor2 tcos tsin width space diameter resistance inductance turns bq).refs.head?
      = some (.extrudedPath
          (coilPathPoints tcos tsin space (quantize grid space) (quantizeEven grid diameter))
          TM2 (quantizeEven grid width))
    ∧ (coilPathPoints tcos tsin space (quantize grid space) (quantizeEven grid diameter)).head?
      = some (space/2,
          3 * (quantizeEven grid diameter / 2 + quantize grid space)
            - (quantizeEven grid diameter / 2 + quantize grid space) * tcos 1)
    ∧ (coilPathPoints tcos tsin space (quantize grid space) (quantizeEven grid diameter)).getLast?
      = some (-(space/2),
          3 * (quantizeEven grid diameter / 2 + quantize grid space)
            - (quantizeEven grid diameter / 2 + quantize grid space) * tcos 1) := by
  refine ⟨rfl, rfl, ?_⟩
  simp only [coilPathPoints]
  rw [List.getLast?_concat]

/-- C2: `inductor2(width=2.0, space=2.1, diameter=25.35)` (remaining
arguments at their defaults) produces a coil path with exactly 10 points,
ports `P1` at `(-2.1, 2.1)` and `P2` at `(2.1, 2.1)` of width `2.1`,
orientation 270° on TopMetal2, and exactly 12 outer-boundary polygons all
sharing the same 8-vertex outer octagon. -/
theorem inductor2_default_scenario (tcos tsin : ℤ → ℚ) :
    (coilPathPoints tcos tsin (21/10) (quantize grid (21/10)) (quantizeEven grid (2535/100))).length = 10
    ∧ (inductor2 tcos tsin 2 (21/10) (2535/100) (5777/10000) (33303/10^15) 1 true).refs.head?
        = some (.extrudedPath
            (coilPathPoints tcos tsin (21/10) (quantize grid (21/10)) (quantizeEven grid (2535/100)))
            TM2 (quantizeEven grid 2))
    ∧ (inductor2 tcos tsin 2 (21/10) (2535/100) (5777/10000) (33303/10^15) 1 true).ports
        = [⟨"P1", (-(21/10), 21/10), 21/10, 270, TM2⟩,
           ⟨"P2", (21/10, 21/10), 21/10, 270, TM2⟩]
    ∧ (inductor2 tcos tsin 2 (21/10) (2535/100) (5777/10000) (33303/10^15) 1 true).polygons.length = 12
    ∧ (inductor2 tcos tsin 2 (21/10) (2535/100) (5777/10000) (33303/10^15) 1 true).polygons.map Prod.fst
        = List.replicate 12 (outerPolygonPts tcos tsin (quantize grid (21/10)) (quantizeEven grid (2535/100)))
    ∧ (inductor2 tcos tsin 2 (21/10) (2535/100) (5777/10000) (33303/10^15) 1 true).polygons.map Prod.snd
        = [IND] ++ NoFillLayers ++ [NoRCX, PWellBlock]
    ∧ (outerPolygonPts tcos tsin (quantize grid (21/10)) (quantizeEven grid (2535/100))).length = 8 := by
  refine ⟨?_, rfl, ?_, ?_, ?_, ?_, ?_⟩
  · simp [coilPathPoints]
  · simp [inductor2, quantize_grid_two_point_one]
  · simp [inductor2, NoFillLayers]
  · simp [inductor2, NoFillLayers, List.replicate_succ]
  · simp [inductor2, NoFillLayers]
  · simp [outerPolygonPts]

/-- C4: the `turns` parameter of `inductor2` affects neither the
referenced geometry, the polygons nor the ports; it only changes the
value stored under the `"turns"` metadata key. -/
theorem inductor2_turns_only_metadata (tcos tsin : ℤ → ℚ)
    (width space diameter resistance inductance : ℚ) (t1 t2 : ℤ) (bq : Bool) :
    (inductor2 tcos tsin width space diameter resistance inductance t1 bq).refs
      = (inductor2 tcos tsin width space diameter resistance inductance t2 bq).refs
    ∧ (inductor2 tcos tsin width space diameter resistance inductance t1 bq).polygons
      = (inductor2 tcos tsin width space diameter resistance inductance t2 bq).polygons
    ∧ (inductor2 tcos tsin width space diameter resistance inductance t1 bq).ports
      = (inductor2 tcos tsin width space diameter resistance inductance t2 bq).ports
    ∧ (inductor2 tcos tsin width space diameter resistance inductance t1 bq).info.lookup "turns"
      = some (.int t1)
    ∧ (inductor2 tcos tsin width space diameter resistance inductance t2 bq).info.lookup "turns"
      = some (.int t2)
    ∧ ∀ k : String, k ≠ "turns" →
        (inductor2 tcos tsin width space diameter resistance inductance t1 bq).info.lookup k
          = (inductor2 tcos tsin width space diameter resistance inductance t2 bq).info.lookup k := by
  refine ⟨rfl, rfl, rfl, rfl, rfl, ?_⟩
  intro k hk
  have hkt : (k == "turns") = false := by simp [hk]
  simp only [inductor2, List.lookup]
  rw [hkt]

/-- Witness for C4 at the default arguments with `turns = 1` and
`turns = 7`. -/
theorem inductor2_turns_only_metadata_witness :
    (inductor2 (fun _ => 0) (fun _ => 0) 2 (21/10) (2535/100) (5777/10000) 1 1 true).info.lookup "model"
      = (inductor2 (fun _ => 0) (fun _ => 0) 2 (21/10) (2535/100) (5777/10000) 1 7 true).info.lookup "model"
    ∧ (inductor2 (fun _ => 0) (fun _ => 0) 2 (21/10) (2535/100) (5777/10000) 1 1 true).info.lookup "turns"
      = some (.int 1) :=
  ⟨(inductor2_turns_only_metadata (fun _ => 0) (fun _ => 0) 2 (21/10) (2535/100)
      (5777/10000) 1 1 7 true).2.2.2.2.2 "model" (by decide),
   (inductor2_turns_only_metadata (fun _ => 0) (fun _ => 0) 2 (21/10) (2535/100)
      (5777/10000) 1 1 7 true).2.2.2.1⟩

/-- C5 counterexample: with the unknown shape `"triangle"`,
`bondpad` raises the shape error, but `bondpad_array(n_pads=0)` never
calls the pad generator and returns successfully — so the array does not
fail for *every* `n_pads`. -/
theorem bondpad_array_zero_pads_no_error :
    (bondpadArray (fun q => q) 1 0 100 80 "triangle" "TM" "PV" "DF" (some [-21/10, 0])
        : Except String (ArrayComponent String))
      = .ok ⟨[], [], [("n_pads", .int 0), ("pad_pitch", .num 100), ("pad_diameter", .num 80)]⟩
    ∧ (bondpad (fun q => q) 1 "triangle" 80 "TM" "PV" "DF" (some [-21/10, 0])
        : Except String (Component String))
      = .error "Unknown shape: triangle" :=
  ⟨rfl, rfl⟩

/-- C5 (amended): a shape outside `{"octagon", "square", "circle"}` makes
`bondpad` fail synchronously, before any geometry is emitted, with a
message naming the offending value, and `bondpad_array` fails identically
for every `n_pads ≥ 1` (with `n_pads = 0` the pad generator is never
called). -/
theorem bondpad_invalid_shape_error {L : Type} (snap2x : ℚ → ℚ) (sqrt2 : ℚ)
    (shape : String) (diameter : ℚ) (ltm lpv ldf : L) (off : Option (List ℚ))
    (pitch pd : ℚ) (n : ℕ)
    (h1 : shape ≠ "square") (h2 : shape ≠ "octagon") (h3 : shape ≠ "circle")
    (hn : 1 ≤ n) :
    bondpad snap2x sqrt2 shape diameter ltm lpv ldf off
      = .error ("Unknown shape: " ++ shape)
    ∧ bondpadArray snap2x sqrt2 n pitch pd shape ltm lpv ldf off
      = .error ("Unknown shape: " ++ shape) := by
  have hb : ∀ d : ℚ, bondpad snap2x sqrt2 shape d ltm lpv ldf off
      = .error ("Unknown shape: " ++ shape) := by
    intro d
    simp [bondpad, padShapeRef, h1, h2, h3]
  have haux : ∀ m : ℕ,
      bondpadArrayAux snap2x sqrt2 shape pd ltm lpv ldf off pitch (m + 1)
        = .error ("Unknown shape: " ++ shape) := by
    intro m
    induction m with
    | zero => rw [bondpadArrayAux, bondpadArrayAux, hb pd]; rfl
    | succ j ih => rw [bondpadArrayAux, ih]; rfl
  obtain ⟨m, rfl⟩ : ∃ m, n = m + 1 := ⟨n - 1, by omega⟩
  refine ⟨hb diameter, ?_⟩
  rw [bondpadArray, haux m]
  rfl

/-- Witness for C5 (amended) at `shape = "triangle"`, `n_pads = 2`. -/
theorem bondpad_invalid_shape_error_witness :
    (bondpad (fun q => q) 1 "triangle" 80 "TM" "PV" "DF" (some [-21/10, 0])
        : Except String (Component String))
      = .error ("Unknown shape: " ++ "triangle")
    ∧ bondpadArray (fun q => q) 1 2 100 80 "triangle" "TM" "PV" "DF" (some [-21/10, 0])
      = .error ("Unknown shape: " ++ "triangle") :=
  bondpad_invalid_shape_error (fun q => q) 1 "triangle" 80 "TM" "PV" "DF"
    (some [-21/10, 0]) 100 80 2 (by decide) (by decide) (by decide) (by decide)

/-- Binding a successful `Except` computation just applies the
continuation. -/
theorem except_ok_bind {ε α β : Type} (a : α) (f : α → Except ε β) :
    (Except.ok a : Except ε α) >>= f = f a := rfl

/-- For a recognized shape, `bondpad` succeeds and its only port is
`"pad"` at the origin with the pad diameter on the top-metal layer. -/
theorem bondpad_valid_ok {L : Type} (snap2x : ℚ → ℚ) (sqrt2 : ℚ) (shape : String)
    (d : ℚ) (ltm lpv ldf : L) (off : Option (List ℚ))
    (hshape : shape = "octagon" ∨ shape = "square" ∨ shape = "circle") :
    ∃ pad, bondpad snap2x sqrt2 shape d ltm lpv ldf off = .ok pad
      ∧ pad.ports = [⟨"pad", (0, 0), d, 0, ltm⟩] := by
  rcases hshape with h | h | h <;> subst h <;> exact ⟨_, rfl, rfl⟩

/-- The `bondpad_array` loop builds one instance and one port per
iteration when the pad generator succeeds. -/
theorem bondpadArrayAux_ok {L : Type} (snap2x : ℚ → ℚ) (sqrt2 : ℚ) (shape : String)
    (pd : ℚ) (ltm lpv ldf : L) (off : Option (List ℚ)) (pitch : ℚ)
    (pad : Component L)
    (hpad : bondpad snap2x sqrt2 shape pd ltm lpv ldf off = .ok pad)
    (hports : pad.ports = [⟨"pad", (0, 0), pd, 0, ltm⟩]) :
    ∀ n : ℕ, bondpadArrayAux snap2x sqrt2 shape pd ltm lpv ldf off pitch n
      = .ok ((List.range n).map (fun (i : ℕ) => (pad, (i : ℚ) * pitch)),
             (List.range n).map (fun (i : ℕ) =>
               ⟨"pad_" ++ toString (i + 1), ((i : ℚ) * pitch, 0), pd, 0, ltm⟩)) := by
  intro n
  induction n with
  | zero => rfl
  | succ m ih =>
    have hfind : List.find? (fun p => decide (p.name = "pad")) pad.ports
        = some ⟨"pad", (0, 0), pd, 0, ltm⟩ := by
      rw [hports]; rfl
    simp only [bondpadArrayAux, ih, hpad, except_ok_bind, getPortLayer, hfind,
      List.range_succ, List.map_append]
    rfl

/-- C6: for every `k ≥ 0` and recognized shape, `bondpad_array(n_pads=k)`
produces exactly `k` ports `"pad_1" … "pad_k"`, the `i`-th (1-based)
centered at `((i-1)·pad_pitch, 0)`, each of width `pad_diameter` and with
the layer copied from the instanced pad's own `"pad"` port. -/
theorem bondpad_array_ports {L : Type} (snap2x : ℚ → ℚ) (sqrt2 : ℚ) (shape : String)
    (pitch pd : ℚ) (ltm lpv ldf : L) (off : Option (List ℚ))
    (hshape : shape = "octagon" ∨ shape = "square" ∨ shape = "circle") (k : ℕ) :
    ∃ arr pad,
      bondpadArray snap2x sqrt2 k pitch pd shape ltm lpv ldf off = .ok arr
      ∧ bondpad snap2x sqrt2 shape pd ltm lpv ldf off = .ok pad
      ∧ getPortLayer pad "pad" = .ok ltm
      ∧ arr.ports = (List.range k).map (fun (i : ℕ) =>
          ⟨"pad_" ++ toString (i + 1), ((i : ℚ) * pitch, 0), pd, 0, ltm⟩)
      ∧ arr.ports.length = k := by
  obtain ⟨pad, hpad, hports⟩ :=
    bondpad_valid_ok snap2x sqrt2 shape pd ltm lpv ldf off hshape
  refine ⟨⟨(List.range k).map (fun (i : ℕ) => (pad, (i : ℚ) * pitch)),
           (List.range k).map (fun (i : ℕ) =>
             ⟨"pad_" ++ toString (i + 1), ((i : ℚ) * pitch, 0), pd, 0, ltm⟩),
           [("n_pads", .int k), ("pad_pitch", .num pitch), ("pad_diameter", .num pd)]⟩,
         pad, ?_, hpad, ?_, rfl, ?_⟩
  · rw [bondpadArray,
      bondpadArrayAux_ok snap2x sqrt2 shape pd ltm lpv ldf off pitch pad hpad hports k]
    rfl
  · simp [getPortLayer, hports]
  · simp

/-- Witness for C6 at `k = 3`, octagonal pads. -/
theorem bondpad_array_ports_witness :
    ∃ arr pad,
      (bondpadArray (fun q => q) 1 3 100 80 "octagon" "TM" "PV" "DF" (some [-21/10, 0])
          : Except String (ArrayComponent String))
        = .ok arr
      ∧ bondpad (fun q => q) 1 "octagon" 80 "TM" "PV" "DF" (some [-21/10, 0]) = .ok pad
      ∧ getPortLayer pad "pad" = .ok "TM"
      ∧ arr.ports = (List.range 3).map (fun (i : ℕ) =>
          ⟨"pad_" ++ toString (i + 1), ((i : ℚ) * 100, 0), 80, 0, "TM"⟩)
      ∧ arr.ports.length = 3 :=
  bondpad_array_ports (fun q => q) 1 "octagon" 100 80 "TM" "PV" "DF"
    (some [-21/10, 0]) (Or.inl rfl) 3

/-- C9: for every offset list, `bondpad` with a recognized shape succeeds
and emits exactly `min(len(bbox_offsets), 2)` additional polygons beyond
the base shape, pairing the offsets in order with the matching prefix of
the `(passivation, dfpad)` layer pair, raising no error when the offset
list is shorter than the layer list. -/
theorem bondpad_offset_layer_count {L : Type} (snap2x : ℚ → ℚ) (sqrt2 : ℚ)
    (shape : String) (d : ℚ) (ltm lpv ldf : L) (off : List ℚ)
    (hshape : shape = "octagon" ∨ shape = "square" ∨ shape = "circle") :
    ∃ c, bondpad snap2x sqrt2 shape d ltm lpv ldf (some off) = .ok c
      ∧ c.refs.length = 1 + min off.length 2
      ∧ c.refs.tail.map Ref.layer = List.take off.length [lpv, ldf]
      ∧ c.refs.tail = (List.zip [lpv, ldf] off).filterMap
          (fun lo => openingRef snap2x sqrt2 shape d lo.1 lo.2) := by
  rcases hshape with h | h | h <;> subst h <;>
    rcases off with _ | ⟨a, _ | ⟨b, t⟩⟩ <;>
      refine ⟨_, rfl, ?_, ?_, rfl⟩ <;>
        simp [bondpad, padShapeRef, openingRef, Ref.layer]

/-- Witness for C9 with both default offsets (1 + 2 polygons). -/
theorem bondpad_offset_layer_count_witness :
    ∃ c, (bondpad (fun q => q) 1 "octagon" 80 "TM" "PV" "DF" (some [-21/10, 0])
            : Except String (Component String))
        = .ok c
      ∧ c.refs.length = 1 + min ([(-21 : ℚ)/10, 0].length) 2
      ∧ c.refs.tail.map Ref.layer = List.take ([(-21 : ℚ)/10, 0].length) ["PV", "DF"]
      ∧ c.refs.tail = (List.zip ["PV", "DF"] [(-21 : ℚ)/10, 0]).filterMap
          (fun lo => openingRef (fun q => q) 1 "octagon" 80 lo.1 lo.2) :=
  bondpad_offset_layer_count (fun q => q) 1 "octagon" 80 "TM" "PV" "DF"
    [-21/10, 0] (Or.inl rfl)

/-- C10: `bondpad` with `bbox_offsets=None` raises no error and produces
only the base-shape geometry on the top-metal layer — zero additional
offset-layer polygons — together with the single `"pad"` port: `None` is
treated as an empty offset list. -/
theorem bondpad_none_offsets {L : Type} (snap2x : ℚ → ℚ) (sqrt2 : ℚ)
    (shape : String) (d : ℚ) (ltm lpv ldf : L)
    (hshape : shape = "octagon" ∨ shape = "square" ∨ shape = "circle") :
    ∃ base, padShapeRef snap2x sqrt2 shape d ltm = some base
      ∧ base.layer = ltm
      ∧ bondpad snap2x sqrt2 shape d ltm lpv ldf none
        = .ok { refs := [base], polygons := [],
                ports := [⟨"pad", (0, 0), d, 0, ltm⟩],
                info := [("shape", .str shape), ("diameter", .num d),
                         ("top_metal", .layer ltm)] } := by
  rcases hshape with h | h | h <;> subst h <;> exact ⟨_, rfl, rfl, rfl⟩

/-- Witness for C10 with the default octagonal shape. -/
theorem bondpad_none_offsets_witness :
    ∃ base, padShapeRef (fun q => q) 1 "octagon" 80 "TM" = some base
      ∧ base.layer = "TM"
      ∧ (bondpad (fun q => q) 1 "octagon" 80 "TM" "PV" "DF" none
            : Except String (Component String))
        = .ok { refs := [base], polygons := [],
                ports := [⟨"pad", (0, 0), 80, 0, "TM"⟩],
                info := [("shape", .str "octagon"), ("diameter", .num 80),
                         ("top_metal", .layer "TM")] } :=
  bondpad_none_offsets (fun q => q) 1 "octagon" 80 "TM" "PV" "DF" (Or.inl rfl)

end IHP
